import Mathlib

/-!
Verification development for the InfiniteYou Gradio demo (`app.py`).

The definitions below are a shallow embedding of the module-level state and
the functions `prepare_pipeline` and `generate_image` of `app.py`, together
with the image-saving block they contain.  Mutable module state
(`loaded_pipeline_config`, the `./results` directory) is passed explicitly;
the external effects that matter to the claims (pipeline construction and
destruction, adapter operations, inference, file writes) are recorded in an
event trace.  Machine integers are modelled as `Nat` with explicit masking
where the code masks (`torch.seed() & 0xFFFFFFFF`).
-/

namespace InfiniteYou

/-- An optional LoRA entry, `(path, adapter_name)`, as assembled in
`prepare_pipeline` lines 124–128 of `app.py` (the blend strength is the
constant `1.0` for both entries and is omitted). -/
abbrev Lora := String × String

/-- Shallow embedding of an `InfUFluxPipeline` instance (`app.py` lines
110–119).  Only the constructor arguments that vary and the in-place adapter
state are kept; `uid` gives each constructed instance an identity so that
"same resident instance" is expressible. -/
structure Pipeline where
  model_version : String
  infu_model_path : String
  quantize_8bit : Bool
  cpu_offload : Bool
  adapters : List Lora
  uid : Nat
deriving DecidableEq, Repr

/-- The module-level dict `loaded_pipeline_config` (`app.py` lines 55–62)
plus a counter supplying fresh instance identities.  The `'pipeline'` key can
be *deleted* by `del loaded_pipeline_config['pipeline']` (line 103), so the
slot is `Option (Option Pipeline)`: `none` means the key is absent,
`some none` means the key holds Python `None`. -/
structure AppState where
  config_model_version : String
  config_enable_realism : Bool
  config_enable_anti_blur : Bool
  config_quantize_8bit : Bool
  config_cpu_offload : Bool
  pipelineSlot : Option (Option Pipeline)
  nextUid : Nat
deriving DecidableEq, Repr

/-- The initial value of `loaded_pipeline_config` (`app.py` lines 55–62). -/
def initialState : AppState :=
  { config_model_version := "aes_stage2"
    config_enable_realism := false
    config_enable_anti_blur := false
    config_quantize_8bit := false
    config_cpu_offload := false
    pipelineSlot := some none
    nextUid := 0 }

/-- Exceptions that `prepare_pipeline` can raise: a Python `KeyError` from
reading the deleted `'pipeline'` key (line 83 / line 98), or any exception
raised by the `InfUFluxPipeline` constructor (lines 110–119). -/
inductive PrepError where
  | keyError
  | constructionFailed
deriving DecidableEq, Repr

/-- Accelerator-visible events recorded while the embedded code runs. -/
inductive Event where
  | destroy (uid : Nat)
  | reclaimMemory
  | construct (model_version : String) (quantize_8bit cpu_offload : Bool) (uid : Nat)
  | constructFailed (model_version : String)
  | deleteAdapters (uid : Nat)
  | loadLoras (uid : Nat) (names : List String)
  | inference (uid : Nat) (seed : Nat)
  | inferenceFailed (uid : Nat) (seed : Nat)
  | save (name : String)
deriving DecidableEq, Repr

deriving instance DecidableEq for Except

/-- Result of a `prepare_pipeline` call: the returned pipeline or the raised
exception, the module state afterwards, and the events that occurred. -/
structure PrepResult where
  result : Except PrepError Pipeline
  state : AppState
  trace : List Event
deriving DecidableEq, Repr

/-- The optional-LoRA list built in `prepare_pipeline` lines 124–128. -/
def lorasFor (enable_realism enable_anti_blur : Bool) : List Lora :=
  (if enable_realism then
    [("./models/InfiniteYou/supports/optional_loras/flux_realism_lora.safetensors", "realism")]
  else []) ++
  (if enable_anti_blur then
    [("./models/InfiniteYou/supports/optional_loras/flux_anti_blur_lora.safetensors", "anti_blur")]
  else [])

/-- The adapter block of `prepare_pipeline` (lines 123–129):
`pipeline.pipe.delete_adapters(['realism', 'anti_blur'])` followed by
`pipeline.load_loras(loras)`.  Both mutate the pipeline in place. -/
def adapterSwap (p : Pipeline) (enable_realism enable_anti_blur : Bool) :
    Pipeline × List Event :=
  let names := lorasFor enable_realism enable_anti_blur
  ({ p with adapters := names },
   [Event.deleteAdapters p.uid, Event.loadLoras p.uid (names.map Prod.snd)])

/-- The cache-miss tail of `prepare_pipeline` (lines 92–131): record the
requested config, reload the base pipeline when the model version differs
(or none is resident), then swap adapters.  `ctorOk` stands for whether the
`InfUFluxPipeline` constructor succeeds (it raises when required weight data
is missing). -/
def prepare_miss (ctorOk : Bool) (s : AppState) (slot : Option Pipeline)
    (model_version : String)
    (enable_realism enable_anti_blur quantize_8bit cpu_offload : Bool) : PrepResult :=
  let s1 : AppState :=
    { s with
      config_enable_realism := enable_realism
      config_enable_anti_blur := enable_anti_blur
      config_quantize_8bit := quantize_8bit
      config_cpu_offload := cpu_offload
      config_model_version := model_version }
  match slot with
  | some p =>
    if p.model_version != model_version then
      let s2 : AppState := { s1 with pipelineSlot := none }
      let destroyed : List Event := [Event.destroy p.uid, Event.reclaimMemory]
      if ctorOk then
        let pNew : Pipeline :=
          { model_version := model_version
            infu_model_path := "./models/InfiniteYou/infu_flux_v1.0/" ++ model_version
            quantize_8bit := quantize_8bit
            cpu_offload := cpu_offload
            adapters := []
            uid := s2.nextUid }
        let swapped := adapterSwap pNew enable_realism enable_anti_blur
        let s3 : AppState :=
          { s2 with pipelineSlot := some (some swapped.1), nextUid := s2.nextUid + 1 }
        ⟨.ok swapped.1, s3,
         destroyed ++
           Event.construct model_version quantize_8bit cpu_offload pNew.uid :: swapped.2⟩
      else
        ⟨.error .constructionFailed, s2, destroyed ++ [Event.constructFailed model_version]⟩
    else
      let swapped := adapterSwap p enable_realism enable_anti_blur
      let s3 : AppState := { s1 with pipelineSlot := some (some swapped.1) }
      ⟨.ok swapped.1, s3, swapped.2⟩
  | none =>
    if ctorOk then
      let pNew : Pipeline :=
        { model_version := model_version
          infu_model_path := "./models/InfiniteYou/infu_flux_v1.0/" ++ model_version
          quantize_8bit := quantize_8bit
          cpu_offload := cpu_offload
          adapters := []
          uid := s1.nextUid }
      let swapped := adapterSwap pNew enable_realism enable_anti_blur
      let s3 : AppState :=
        { s1 with pipelineSlot := some (some swapped.1), nextUid := s1.nextUid + 1 }
      ⟨.ok swapped.1, s3,
       Event.construct model_version quantize_8bit cpu_offload pNew.uid :: swapped.2⟩
    else
      ⟨.error .constructionFailed, s1, [Event.constructFailed model_version]⟩

/-- `prepare_pipeline` (`app.py` lines 81–131).  Line 83 reads
`loaded_pipeline_config['pipeline']`, which raises `KeyError` when the key
was deleted by a previously failed reload; the cache-hit test (lines 82–89)
compares the *recorded* config fields against the arguments. -/
def prepare_pipeline (ctorOk : Bool) (s : AppState) (model_version : String)
    (enable_realism enable_anti_blur quantize_8bit cpu_offload : Bool) : PrepResult :=
  match s.pipelineSlot with
  | none => ⟨.error .keyError, s, []⟩
  | some slot =>
    match slot with
    | some p =>
      if s.config_enable_realism == enable_realism
          && s.config_enable_anti_blur == enable_anti_blur
          && s.config_quantize_8bit == quantize_8bit
          && s.config_cpu_offload == cpu_offload
          && model_version == s.config_model_version then
        ⟨.ok p, s, []⟩
      else
        prepare_miss ctorOk s (some p) model_version
          enable_realism enable_anti_blur quantize_8bit cpu_offload
    | none =>
      prepare_miss ctorOk s none model_version
        enable_realism enable_anti_blur quantize_8bit cpu_offload

/-- Python's `str.isalnum`, modelled on the ASCII plane (where it coincides
with `Char.isAlphanum`); characters outside ASCII letters/digits — including
slashes, quotes, and emoji — are treated as non-alphanumeric, as in Python.
Non-ASCII Unicode letters are approximated as non-alphanumeric. -/
def pyIsAlnum (c : Char) : Bool := c.isAlphanum

/-- One character of the sanitizing generator in `app.py` line 184:
`c if c.isalnum() or c in '_-' else '_'`. -/
def sanitizeChar (c : Char) : Char :=
  if pyIsAlnum c || c = '_' || c = '-' then c else '_'

/-- Python `str.replace(' ', '_')` for a single-character pattern, i.e. a
character-wise map (`app.py` line 184, `prompt[:50].replace(' ', '_')`). -/
def replaceSpace (l : List Char) : List Char :=
  l.map fun c => if c = ' ' then '_' else c

/-- Python `str.strip('_')`: drop leading and trailing `'_'` characters. -/
def stripUnderscores (l : List Char) : List Char :=
  ((l.dropWhile fun c => c = '_').reverse.dropWhile fun c => c = '_').reverse

/-- The sanitized prompt of `app.py` line 184. -/
def prompt_name (prompt : String) : String :=
  String.mk (stripUnderscores ((replaceSpace (prompt.data.take 50)).map sanitizeChar))

/-- Python's `f"{index:05d}"`: decimal representation left-padded with `'0'`
to a minimum width of 5. -/
def zpad5 (n : Nat) : String :=
  String.mk (List.replicate (5 - (Nat.repr n).length) '0') ++ Nat.repr n

/-- The output filename of `app.py` line 185:
`f"{index:05d}_{prompt_name}_seed{seed}.png"`. -/
def out_name (index : Nat) (prompt : String) (seed : Nat) : String :=
  zpad5 index ++ "_" ++ prompt_name prompt ++ "_seed" ++ Nat.repr seed ++ ".png"

/-- The saving block of `generate_image` (`app.py` lines 182–187).  The
results directory is a list of filenames; `none` models an absent directory,
which `os.makedirs(OUTPUT_DIR, exist_ok=True)` creates; `index` is
`len(os.listdir(OUTPUT_DIR))`; `image.save` appends one file. -/
def save_block (fs : Option (List String)) (prompt : String) (seed : Nat) :
    Option (List String) × String :=
  let dir := match fs with
    | none => []
    | some d => d
  let index := dir.length
  let name := out_name index prompt seed
  (some (dir ++ [name]), name)

/-- The pair returned to Gradio by `generate_image`: the `gr.update(...)`
for the image widget (line 188 on success carries a value and a label;
line 192 on failure is the empty `gr.update()`), and the string for the
"Last Seed Used" textbox. -/
structure GrUpdate where
  value : Option Nat
  label : Option String
deriving DecidableEq, Repr

structure GenReturn where
  update : GrUpdate
  lastSeed : String
deriving DecidableEq, Repr

/-- Full outcome of a `generate_image` call: the returned pair (or the
exception propagating out of `prepare_pipeline`, which the `try` block does
not cover), the module state and results directory afterwards, the event
trace, the console output (`print(e)`, line 190), and the `gr.Error`
objects that line 191 constructs without raising them. -/
structure GenResult where
  ret : Except PrepError GenReturn
  state : AppState
  fs : Option (List String)
  trace : List Event
  console : List String
  unraisedErrors : List String
deriving DecidableEq, Repr

/-- `generate_image` (`app.py` lines 133–192).  `ctorOk` models whether the
pipeline constructor succeeds inside `prepare_pipeline`; `inferOk` whether
the `pipeline(...)` call inside the `try` block succeeds; `randSeed` is the
value returned by `torch.seed()`; `imageOut` stands for the produced image;
`errMsg` is the text of the exception raised on an inference failure.
`seed == 0` is replaced by `torch.seed() & 0xFFFFFFFF` (lines 163–164). -/
def generate_image (ctorOk inferOk : Bool) (randSeed imageOut : Nat) (errMsg : String)
    (s : AppState) (fs : Option (List String)) (prompt : String) (seed : Nat)
    (enable_realism enable_anti_blur quantize_8bit cpu_offload : Bool)
    (model_version : String) : GenResult :=
  let pr := prepare_pipeline ctorOk s model_version
    enable_realism enable_anti_blur quantize_8bit cpu_offload
  match pr.result with
  | .error e =>
    { ret := .error e, state := pr.state, fs := fs, trace := pr.trace
      console := [], unraisedErrors := [] }
  | .ok p =>
    let seed := if seed == 0 then randSeed &&& 0xFFFFFFFF else seed
    if inferOk then
      let saved := save_block fs prompt seed
      { ret := .ok
          { update :=
              { value := some imageOut
                label := some ("Generated Image, seed=" ++ Nat.repr seed ++
                  ", saved to ./results/" ++ saved.2) }
            lastSeed := Nat.repr seed }
        state := pr.state
        fs := saved.1
        trace := pr.trace ++ [Event.inference p.uid seed, Event.save saved.2]
        console := []
        unraisedErrors := [] }
    else
      { ret := .ok { update := { value := none, label := none }, lastSeed := Nat.repr seed }
        state := pr.state
        fs := fs
        trace := pr.trace ++ [Event.inferenceFailed p.uid seed]
        console := [errMsg]
        unraisedErrors := ["An error occurred: " ++ errMsg] }

/-! ### Decimal-representation helper lemmas -/

/-- Numeric value of a decimal digit character. -/
def digitVal (c : Char) : Nat := c.toNat - 48

/-- Decode a list of decimal digit characters, most significant first. -/
def decodeDigits (l : List Char) : Nat :=
  l.foldl (fun x c => x * 10 + digitVal c) 0

/-- The sanitized prompt prefix exactly as the specification words it: the
prompt truncated to a 50-character prefix, every character that is not
alphanumeric, `'_'`, or `'-'` replaced by `'_'`, and leading/trailing `'_'`
stripped.  Stated independently of `prompt_name` (which is translated from
the code and pre-replaces spaces before sanitizing) so the two can be
compared. -/
def spec_sanitized (prompt : String) : String :=
  String.mk (stripUnderscores ((prompt.data.take 50).map sanitizeChar))

/-- Run the saving block of `generate_image` once for each `(prompt, seed)`
pair, threading the results directory, as happens over a sequence of
successful generations. -/
def runSaves (fs : Option (List String)) : List (String × Nat) → Option (List String)
  | [] => fs
  | (p, sd) :: rest => runSaves (save_block fs p sd).1 rest

/-- The filenames the saving block produces for consecutive sequence
numbers starting at `start`. -/
def namesFrom (start : Nat) : List (String × Nat) → List String
  | [] => []
  | (p, sd) :: rest => out_name start p sd :: namesFrom (start + 1) rest

/-- Does the event record a full base-pipeline reconstruction (or the
attempt of one)? -/
def isFullReconstruction : Event → Bool
  | .construct _ _ _ _ => true
  | .constructFailed _ => true
  | _ => false

/-- Does the event record the destruction of a resident pipeline? -/
def isDestroyEvent : Event → Bool
  | .destroy _ => true
  | _ => false

/-- Every construction in the trace is preceded by some destruction:
resource release happens strictly before resource acquisition. -/
def releaseBeforeAcquire (tr : List Event) : Prop :=
  ∀ j mv q c u, tr.get? j = some (.construct mv q c u) →
    ∃ i u2, i < j ∧ tr.get? i = some (.destroy u2)

/-- Auxiliary fold: running count of resident pipelines along a trace with
its running maximum. -/
def maxResidentsAux : Nat → Nat → List Event → Nat
  | _, mx, [] => mx
  | cur, mx, e :: rest =>
    let cur2 := match e with
      | .destroy _ => cur - 1
      | .construct _ _ _ _ => cur + 1
      | _ => cur
    maxResidentsAux cur2 (max mx cur2) rest

/-- The largest number of pipelines simultaneously resident at any point
along a trace that starts with `start` pipelines resident. -/
def maxResidents (start : Nat) (tr : List Event) : Nat :=
  maxResidentsAux start start tr

theorem digitChar_isDigit : ∀ m, m < 10 → (Nat.digitChar m).isDigit = true := by decide

theorem digitVal_digitChar : ∀ m, m < 10 → digitVal (Nat.digitChar m) = m := by decide

theorem foldl_decode_shift :
    ∀ (l : List Char) (a : Nat),
      l.foldl (fun x c => x * 10 + digitVal c) a
        = a * 10 ^ l.length + l.foldl (fun x c => x * 10 + digitVal c) 0 := by
  intro l
  induction l with
  | nil => intro a; simp
  | cons c t ih =>
    intro a
    simp only [List.foldl_cons, List.length_cons]
    rw [ih (a * 10 + digitVal c), ih (0 * 10 + digitVal c)]
    ring

theorem decode_cons (c : Char) (t : List Char) :
    decodeDigits (c :: t) = digitVal c * 10 ^ t.length + decodeDigits t := by
  show List.foldl _ _ _ = _
  rw [List.foldl_cons, foldl_decode_shift t (0 * 10 + digitVal c)]
  simp [decodeDigits]

theorem toDigitsCore_length_le :
    ∀ (fuel k n : Nat) (ds : List Char), 1 ≤ k → n < 10 ^ k →
      (Nat.toDigitsCore 10 fuel n ds).length ≤ k + ds.length := by
  intro fuel
  induction fuel with
  | zero =>
    intro k n ds hk _
    simp only [Nat.toDigitsCore]
    omega
  | succ fuel ih =>
    intro k n ds hk hn
    simp only [Nat.toDigitsCore]
    by_cases hz : n / 10 = 0
    · rw [if_pos hz]
      simp only [List.length_cons]
      omega
    · rw [if_neg hz]
      have h10 : 10 ≤ n := by
        by_contra hlt
        push_neg at hlt
        exact hz (Nat.div_eq_of_lt hlt)
      have hk2 : 2 ≤ k := by
        by_contra hlt
        push_neg at hlt
        have hk1 : k = 1 := by omega
        subst hk1
        norm_num at hn
        omega
      obtain ⟨j, rfl⟩ : ∃ j, k = j + 1 := ⟨k - 1, by omega⟩
      have hn' : n / 10 < 10 ^ j := by
        rw [Nat.div_lt_iff_lt_mul (by norm_num)]
        calc n < 10 ^ (j + 1) := hn
          _ = 10 ^ j * 10 := by ring
      have := ih j (n / 10) (Nat.digitChar (n % 10) :: ds) (by omega) hn'
      simp only [List.length_cons] at this
      omega

theorem toDigitsCore_isDigit :
    ∀ (fuel n : Nat) (ds : List Char), (∀ c ∈ ds, c.isDigit = true) →
      ∀ c ∈ Nat.toDigitsCore 10 fuel n ds, c.isDigit = true := by
  intro fuel
  induction fuel with
  | zero =>
    intro n ds h
    simpa only [Nat.toDigitsCore] using h
  | succ fuel ih =>
    intro n ds h
    have hd : (Nat.digitChar (n % 10)).isDigit = true :=
      digitChar_isDigit _ (Nat.mod_lt _ (by norm_num))
    simp only [Nat.toDigitsCore]
    by_cases hz : n / 10 = 0
    · rw [if_pos hz]
      intro c hc
      rcases List.mem_cons.mp hc with rfl | hmem
      · exact hd
      · exact h c hmem
    · rw [if_neg hz]
      refine ih (n / 10) _ ?_
      intro c hc
      rcases List.mem_cons.mp hc with rfl | hmem
      · exact hd
      · exact h c hmem

theorem decode_toDigitsCore :
    ∀ (fuel n : Nat) (ds : List Char), n < fuel →
      decodeDigits (Nat.toDigitsCore 10 fuel n ds)
        = n * 10 ^ ds.length + decodeDigits ds := by
  intro fuel
  induction fuel with
  | zero => intro n ds h; omega
  | succ fuel ih =>
    intro n ds h
    simp only [Nat.toDigitsCore]
    by_cases hz : n / 10 = 0
    · have hn10 : n < 10 := by
        rcases Nat.lt_or_ge n 10 with h' | h'
        · exact h'
        · exact absurd hz (by
            have : 1 ≤ n / 10 := (Nat.one_le_div_iff (by norm_num)).mpr h'
            omega)
      rw [if_pos hz, decode_cons, digitVal_digitChar _ (Nat.mod_lt _ (by norm_num)),
        Nat.mod_eq_of_lt hn10]
    · rw [if_neg hz]
      have hlt : n / 10 < fuel := by
        have h1 : n / 10 < n := Nat.div_lt_self (by omega) (by norm_num)
        omega
      rw [ih (n / 10) _ hlt, decode_cons,
        digitVal_digitChar _ (Nat.mod_lt _ (by norm_num))]
      have hdm : 10 * (n / 10) + n % 10 = n := Nat.div_add_mod n 10
      calc n / 10 * 10 ^ (Nat.digitChar (n % 10) :: ds).length
            + (n % 10 * 10 ^ ds.length + decodeDigits ds)
          = (10 * (n / 10) + n % 10) * 10 ^ ds.length + decodeDigits ds := by
            simp only [List.length_cons]
            ring
        _ = n * 10 ^ ds.length + decodeDigits ds := by rw [hdm]

theorem length_asString (l : List Char) : l.asString.length = l.length := rfl

theorem length_eq_data_length (s : String) : s.length = s.data.length := rfl

theorem decode_repr (n : Nat) : decodeDigits (Nat.repr n).data = n := by
  have h : (Nat.repr n).data = Nat.toDigitsCore 10 (n + 1) n [] := rfl
  rw [h, decode_toDigitsCore (n + 1) n [] (Nat.lt_succ_self n)]
  simp [decodeDigits]

theorem repr_length_le_five {n : Nat} (h : n < 100000) : (Nat.repr n).length ≤ 5 := by
  have h5 : n < 10 ^ 5 := lt_of_lt_of_le h (by norm_num)
  have h2 := toDigitsCore_length_le (n + 1) 5 n [] (by omega) h5
  show (Nat.toDigitsCore 10 (n + 1) n []).length ≤ 5
  simpa using h2

theorem repr_isDigit (n : Nat) : ∀ c ∈ (Nat.repr n).data, c.isDigit = true := by
  have h : (Nat.repr n).data = Nat.toDigitsCore 10 (n + 1) n [] := rfl
  rw [h]
  exact toDigitsCore_isDigit (n + 1) n [] (by simp)

theorem repr_ne_zero_string {n : Nat} (h : n ≠ 0) : Nat.repr n ≠ "0" := by
  intro hrepr
  have hd := decode_repr n
  rw [hrepr] at hd
  have : decodeDigits (String.data "0") = 0 := rfl
  omega

/-! ### Facts about the zero-padded sequence number and the filename -/

theorem zpad5_data (n : Nat) :
    (zpad5 n).data
      = List.replicate (5 - (Nat.repr n).length) '0' ++ (Nat.repr n).data := by
  simp [zpad5]

theorem zpad5_length {n : Nat} (h : n < 100000) : (zpad5 n).length = 5 := by
  have hle := repr_length_le_five h
  rw [length_eq_data_length, zpad5_data]
  rw [List.length_append, List.length_replicate]
  rw [← length_eq_data_length]
  omega

theorem zpad5_isDigit (n : Nat) : ∀ c ∈ (zpad5 n).data, c.isDigit = true := by
  rw [zpad5_data]
  intro c hc
  rcases List.mem_append.mp hc with hrep | hrepr
  · rw [List.eq_of_mem_replicate hrep]
    rfl
  · exact repr_isDigit n c hrepr

theorem decode_replicate_zero (k : Nat) (l : List Char) :
    decodeDigits (List.replicate k '0' ++ l) = decodeDigits l := by
  induction k with
  | zero => simp
  | succ k ih =>
    rw [List.replicate_succ, List.cons_append, decode_cons]
    have h0 : digitVal '0' = 0 := rfl
    rw [h0, ih]
    ring

theorem decode_zpad5 (n : Nat) : decodeDigits (zpad5 n).data = n := by
  rw [zpad5_data, decode_replicate_zero, decode_repr]

theorem out_name_data (index : Nat) (prompt : String) (seed : Nat) :
    (out_name index prompt seed).data
      = (zpad5 index).data
        ++ ("_" ++ prompt_name prompt ++ "_seed" ++ Nat.repr seed ++ ".png").data := by
  simp [out_name, List.append_assoc]

theorem out_name_inj_index {i j : Nat} {p1 p2 : String} {s1 s2 : Nat}
    (hi : i < 100000) (hj : j < 100000)
    (h : out_name i p1 s1 = out_name j p2 s2) : i = j := by
  have hd := congrArg String.data h
  rw [out_name_data, out_name_data] at hd
  have hli : (zpad5 i).data.length = 5 := by
    rw [← length_eq_data_length]; exact zpad5_length hi
  have hlj : (zpad5 j).data.length = 5 := by
    rw [← length_eq_data_length]; exact zpad5_length hj
  have htake := congrArg (List.take 5) hd
  rw [List.take_left' hli, List.take_left' hlj] at htake
  have ha := decode_zpad5 i
  have hb := decode_zpad5 j
  rw [htake] at ha
  omega

theorem prompt_name_eq_spec (prompt : String) :
    prompt_name prompt = spec_sanitized prompt := by
  unfold prompt_name spec_sanitized replaceSpace
  rw [List.map_map]
  have hfun : sanitizeChar ∘ (fun c => if c = ' ' then '_' else c) = sanitizeChar := by
    funext c
    by_cases hc : c = ' '
    · subst hc
      show sanitizeChar '_' = sanitizeChar ' '
      decide
    · simp [Function.comp, if_neg hc]
  rw [hfun]

/-! ### Sequential saving (the scenario of the collision-freedom claim) -/

theorem namesFrom_length (start : Nat) (ps : List (String × Nat)) :
    (namesFrom start ps).length = ps.length := by
  induction ps generalizing start with
  | nil => rfl
  | cons h t ih =>
    obtain ⟨p, sd⟩ := h
    simp [namesFrom, ih]

theorem namesFrom_get? (ps : List (String × Nat)) :
    ∀ (start k : Nat),
      (namesFrom start ps).get? k
        = (ps.get? k).map fun e => out_name (start + k) e.1 e.2 := by
  induction ps with
  | nil => intro start k; simp [namesFrom]
  | cons h t ih =>
    intro start k
    obtain ⟨p, sd⟩ := h
    cases k with
    | zero => simp [namesFrom]
    | succ k =>
      show (namesFrom (start + 1) t).get? k = _
      rw [ih (start + 1) k,
        show start + 1 + k = start + (k + 1) from by omega]
      rfl

theorem mem_namesFrom {x : String} (ps : List (String × Nat)) :
    ∀ start : Nat, x ∈ namesFrom start ps →
      ∃ k, k < ps.length ∧ ∃ p sd, ps.get? k = some (p, sd) ∧ x = out_name (start + k) p sd := by
  induction ps with
  | nil => intro start h; simp [namesFrom] at h
  | cons hd t ih =>
    intro start h
    obtain ⟨p, sd⟩ := hd
    rcases List.mem_cons.mp h with rfl | hmem
    · exact ⟨0, by simp, p, sd, by simp⟩
    · obtain ⟨k, hk, p2, sd2, hget, hx⟩ := ih (start + 1) hmem
      exact ⟨k + 1, by simpa using Nat.succ_lt_succ hk, p2, sd2, by simpa using hget,
        by rw [hx]; congr 1; omega⟩

theorem namesFrom_append (a b : List (String × Nat)) :
    ∀ start : Nat,
      namesFrom start (a ++ b) = namesFrom start a ++ namesFrom (start + a.length) b := by
  induction a with
  | nil => intro start; simp [namesFrom]
  | cons h t ih =>
    intro start
    obtain ⟨p, sd⟩ := h
    show out_name start p sd :: namesFrom (start + 1) (t ++ b) = _
    rw [ih (start + 1)]
    simp only [List.length_cons, List.cons_append, namesFrom]
    rw [show start + 1 + t.length = start + (t.length + 1) from by omega]

theorem runSaves_some (ps : List (String × Nat)) :
    ∀ d : List String, runSaves (some d) ps = some (d ++ namesFrom d.length ps) := by
  induction ps with
  | nil => intro d; simp [runSaves, namesFrom]
  | cons h t ih =>
    intro d
    obtain ⟨p, sd⟩ := h
    simp only [runSaves, save_block, namesFrom]
    rw [ih (d ++ [out_name d.length p sd])]
    simp

theorem namesFrom_pairwise_ne (ps : List (String × Nat)) :
    ∀ start : Nat, start + ps.length ≤ 100000 →
      (namesFrom start ps).Pairwise (· ≠ ·) := by
  induction ps with
  | nil => intro start _; simp [namesFrom]
  | cons h t ih =>
    intro start hb
    obtain ⟨p, sd⟩ := h
    simp only [namesFrom, List.length_cons] at hb ⊢
    constructor
    · intro x hx heq
      obtain ⟨k, hk, p2, sd2, _, hxname⟩ := mem_namesFrom t (start + 1) hx
      rw [hxname] at heq
      have := out_name_inj_index (by omega) (by omega) heq
      omega
    · exact ih (start + 1) (by omega)

/-! ### Helper lemmas about `generate_image` -/

theorem generate_ret_ok (inferOk : Bool) (randSeed imageOut : Nat)
    (errMsg prompt : String) (fs : Option (List String)) (seed : Nat) :
    ∃ rv, (generate_image true inferOk randSeed imageOut errMsg initialState fs prompt seed
        false false false false "aes_stage2").ret = .ok rv ∧
      rv.lastSeed = Nat.repr (if seed == 0 then randSeed &&& 0xFFFFFFFF else seed) := by
  unfold generate_image
  cases inferOk <;> exact ⟨_, rfl, rfl⟩

theorem generate_state_eq (inferOk : Bool) (randSeed imageOut : Nat)
    (errMsg prompt : String) (fs : Option (List String)) (seed : Nat) :
    (generate_image true inferOk randSeed imageOut errMsg initialState fs prompt seed
        false false false false "aes_stage2").state
      = (prepare_pipeline true initialState "aes_stage2" false false false false).state := by
  unfold generate_image
  cases inferOk <;> rfl

/-! ### Claim theorems -/

/-- C3: for every config `C`, calling `prepare_pipeline` twice in a row
(starting from the initial, empty cache) performs exactly one full
reconstruction — the second call performs no reconstruction and no adapter
load (its event trace is empty) — and both calls return the identical
resident pipeline handle, leaving the state unchanged. -/
theorem claim_C3_cache_hit_idempotent (mv : String) (r ab q off : Bool) :
    ∃ p : Pipeline,
      (prepare_pipeline true initialState mv r ab q off).result = .ok p ∧
      (prepare_pipeline true initialState mv r ab q off).trace.countP
        isFullReconstruction = 1 ∧
      prepare_pipeline true (prepare_pipeline true initialState mv r ab q off).state
          mv r ab q off
        = ⟨.ok p, (prepare_pipeline true initialState mv r ab q off).state, []⟩ := by
  have h1 : prepare_pipeline true initialState mv r ab q off =
      ⟨.ok { model_version := mv
             infu_model_path := "./models/InfiniteYou/infu_flux_v1.0/" ++ mv
             quantize_8bit := q, cpu_offload := off
             adapters := lorasFor r ab, uid := 0 },
        { config_model_version := mv, config_enable_realism := r
          config_enable_anti_blur := ab, config_quantize_8bit := q
          config_cpu_offload := off
          pipelineSlot := some (some
            { model_version := mv
              infu_model_path := "./models/InfiniteYou/infu_flux_v1.0/" ++ mv
              quantize_8bit := q, cpu_offload := off
              adapters := lorasFor r ab, uid := 0 })
          nextUid := 1 },
        [Event.construct mv q off 0, Event.deleteAdapters 0,
          Event.loadLoras 0 ((lorasFor r ab).map Prod.snd)]⟩ := rfl
  refine ⟨{ model_version := mv
            infu_model_path := "./models/InfiniteYou/infu_flux_v1.0/" ++ mv
            quantize_8bit := q, cpu_offload := off
            adapters := lorasFor r ab, uid := 0 }, ?_, ?_, ?_⟩
  · rw [h1]
  · rw [h1]
    rfl
  · rw [h1]
    simp [prepare_pipeline]

/-- C4: for two configs differing only in the model version, `prepare`
after `prepare` destroys the first resident pipeline (and reclaims its
accelerator memory) strictly before the second pipeline's construction
begins, and at no point along the trace are two pipelines resident. -/
theorem claim_C4_variant_switch_destroys_first (mv1 mv2 : String) (r ab q off : Bool)
    (hmv : mv1 ≠ mv2) :
    ∃ p1 p2 : Pipeline,
      (prepare_pipeline true initialState mv1 r ab q off).result = .ok p1 ∧
      (prepare_pipeline true (prepare_pipeline true initialState mv1 r ab q off).state
        mv2 r ab q off).result = .ok p2 ∧
      p1.uid ≠ p2.uid ∧
      (prepare_pipeline true (prepare_pipeline true initialState mv1 r ab q off).state
          mv2 r ab q off).trace
        = [Event.destroy p1.uid, Event.reclaimMemory,
           Event.construct mv2 q off p2.uid, Event.deleteAdapters p2.uid,
           Event.loadLoras p2.uid ((lorasFor r ab).map Prod.snd)] ∧
      releaseBeforeAcquire
        (prepare_pipeline true (prepare_pipeline true initialState mv1 r ab q off).state
          mv2 r ab q off).trace ∧
      maxResidents 1
        (prepare_pipeline true (prepare_pipeline true initialState mv1 r ab q off).state
          mv2 r ab q off).trace ≤ 1 := by
  have h1 : prepare_pipeline true initialState mv1 r ab q off =
      ⟨.ok { model_version := mv1
             infu_model_path := "./models/InfiniteYou/infu_flux_v1.0/" ++ mv1
             quantize_8bit := q, cpu_offload := off
             adapters := lorasFor r ab, uid := 0 },
        { config_model_version := mv1, config_enable_realism := r
          config_enable_anti_blur := ab, config_quantize_8bit := q
          config_cpu_offload := off
          pipelineSlot := some (some
            { model_version := mv1
              infu_model_path := "./models/InfiniteYou/infu_flux_v1.0/" ++ mv1
              quantize_8bit := q, cpu_offload := off
              adapters := lorasFor r ab, uid := 0 })
          nextUid := 1 },
        [Event.construct mv1 q off 0, Event.deleteAdapters 0,
          Event.loadLoras 0 ((lorasFor r ab).map Prod.snd)]⟩ := rfl
  have hbeq : (mv2 == mv1) = false := beq_eq_false_iff_ne.mpr (Ne.symm hmv)
  have hbne : (mv1 != mv2) = true := bne_iff_ne.mpr hmv
  have h2 : prepare_pipeline true (prepare_pipeline true initialState mv1 r ab q off).state
      mv2 r ab q off =
      ⟨.ok { model_version := mv2
             infu_model_path := "./models/InfiniteYou/infu_flux_v1.0/" ++ mv2
             quantize_8bit := q, cpu_offload := off
             adapters := lorasFor r ab, uid := 1 },
        { config_model_version := mv2, config_enable_realism := r
          config_enable_anti_blur := ab, config_quantize_8bit := q
          config_cpu_offload := off
          pipelineSlot := some (some
            { model_version := mv2
              infu_model_path := "./models/InfiniteYou/infu_flux_v1.0/" ++ mv2
              quantize_8bit := q, cpu_offload := off
              adapters := lorasFor r ab, uid := 1 })
          nextUid := 2 },
        [Event.destroy 0, Event.reclaimMemory, Event.construct mv2 q off 1,
          Event.deleteAdapters 1, Event.loadLoras 1 ((lorasFor r ab).map Prod.snd)]⟩ := by
    rw [h1]
    simp [prepare_pipeline, hbeq, prepare_miss, hbne, adapterSwap]
  refine ⟨_, _, by rw [h1], by rw [h2], by simp, by rw [h2], ?_, ?_⟩
  · rw [h2]
    intro j mvx qx cx ux hj
    match j with
    | 0 => simp at hj
    | 1 => simp at hj
    | 2 => exact ⟨0, 0, by omega, rfl⟩
    | 3 => simp at hj
    | 4 => simp at hj
    | j + 5 => simp at hj
  · rw [h2]
    rfl

/-- C5: for two configs that differ only in the set of enabled add-on
LoRAs (same model version, quantization, and offload flags), the second
`prepare` call performs no full reconstruction and no destruction: only the
adapter delete/load operations occur, on the same resident instance (same
`uid`), and that instance is returned and kept resident. -/
theorem claim_C5_addon_swap_no_reconstruction (mv : String) (q off r1 ab1 r2 ab2 : Bool)
    (h : (r1, ab1) ≠ (r2, ab2)) :
    ∃ p1 p2 : Pipeline,
      (prepare_pipeline true initialState mv r1 ab1 q off).result = .ok p1 ∧
      (prepare_pipeline true (prepare_pipeline true initialState mv r1 ab1 q off).state
        mv r2 ab2 q off).result = .ok p2 ∧
      p2.uid = p1.uid ∧
      (prepare_pipeline true (prepare_pipeline true initialState mv r1 ab1 q off).state
          mv r2 ab2 q off).trace
        = [Event.deleteAdapters p1.uid,
           Event.loadLoras p1.uid ((lorasFor r2 ab2).map Prod.snd)] ∧
      (prepare_pipeline true (prepare_pipeline true initialState mv r1 ab1 q off).state
          mv r2 ab2 q off).trace.countP isFullReconstruction = 0 ∧
      (prepare_pipeline true (prepare_pipeline true initialState mv r1 ab1 q off).state
          mv r2 ab2 q off).trace.countP isDestroyEvent = 0 ∧
      (prepare_pipeline true (prepare_pipeline true initialState mv r1 ab1 q off).state
          mv r2 ab2 q off).state.pipelineSlot = some (some p2) := by
  have h1 : prepare_pipeline true initialState mv r1 ab1 q off =
      ⟨.ok { model_version := mv
             infu_model_path := "./models/InfiniteYou/infu_flux_v1.0/" ++ mv
             quantize_8bit := q, cpu_offload := off
             adapters := lorasFor r1 ab1, uid := 0 },
        { config_model_version := mv, config_enable_realism := r1
          config_enable_anti_blur := ab1, config_quantize_8bit := q
          config_cpu_offload := off
          pipelineSlot := some (some
            { model_version := mv
              infu_model_path := "./models/InfiniteYou/infu_flux_v1.0/" ++ mv
              quantize_8bit := q, cpu_offload := off
              adapters := lorasFor r1 ab1, uid := 0 })
          nextUid := 1 },
        [Event.construct mv q off 0, Event.deleteAdapters 0,
          Event.loadLoras 0 ((lorasFor r1 ab1).map Prod.snd)]⟩ := rfl
  have hcond : ((r1 == r2) && (ab1 == ab2)) = false := by
    cases r1 <;> cases r2 <;> cases ab1 <;> cases ab2 <;> simp_all
  have h2 : prepare_pipeline true (prepare_pipeline true initialState mv r1 ab1 q off).state
      mv r2 ab2 q off =
      ⟨.ok { model_version := mv
             infu_model_path := "./models/InfiniteYou/infu_flux_v1.0/" ++ mv
             quantize_8bit := q, cpu_offload := off
             adapters := lorasFor r2 ab2, uid := 0 },
        { config_model_version := mv, config_enable_realism := r2
          config_enable_anti_blur := ab2, config_quantize_8bit := q
          config_cpu_offload := off
          pipelineSlot := some (some
            { model_version := mv
              infu_model_path := "./models/InfiniteYou/infu_flux_v1.0/" ++ mv
              quantize_8bit := q, cpu_offload := off
              adapters := lorasFor r2 ab2, uid := 0 })
          nextUid := 1 },
        [Event.deleteAdapters 0, Event.loadLoras 0 ((lorasFor r2 ab2).map Prod.snd)]⟩ := by
    rw [h1]
    have hc2 : ((r1 == r2) && ((ab1 == ab2) && ((q == q) && ((off == off)
        && (mv == mv))))) = false := by
      cases r1 <;> cases r2 <;> cases ab1 <;> cases ab2 <;> simp_all
    simp [prepare_pipeline, prepare_miss, adapterSwap, hcond, hc2]
  refine ⟨{ model_version := mv
            infu_model_path := "./models/InfiniteYou/infu_flux_v1.0/" ++ mv
            quantize_8bit := q, cpu_offload := off
            adapters := lorasFor r1 ab1, uid := 0 },
          { model_version := mv
            infu_model_path := "./models/InfiniteYou/infu_flux_v1.0/" ++ mv
            quantize_8bit := q, cpu_offload := off
            adapters := lorasFor r2 ab2, uid := 0 },
    by rw [h1], by rw [h2], rfl, by rw [h2], by rw [h2]; rfl,
    by rw [h2]; rfl, by rw [h2]⟩

/-- C1: with a pipeline resident for `aes_stage2` built with
`quantize_8bit = false`, a `prepare_pipeline` call requesting
`quantize_8bit = true` (same variant) performs **no** destruction and **no**
reconstruction: it records the new flags, swaps adapters on the live
instance, and returns the same instance still built with
`quantize_8bit = false`.  This contradicts the claim that a
quantized/cpu-offload change is treated like a variant change (destroy and
rebuild); the code reuses the live instance. -/
theorem claim_C1_quantize_change_reuses_live_instance :
    (prepare_pipeline true
        (prepare_pipeline true initialState "aes_stage2" false false false false).state
        "aes_stage2" false false true false).trace.countP isFullReconstruction = 0 ∧
    (prepare_pipeline true
        (prepare_pipeline true initialState "aes_stage2" false false false false).state
        "aes_stage2" false false true false).trace.countP isDestroyEvent = 0 ∧
    (prepare_pipeline true
        (prepare_pipeline true initialState "aes_stage2" false false false false).state
        "aes_stage2" false false true false).result
      = .ok { model_version := "aes_stage2"
              infu_model_path := "./models/InfiniteYou/infu_flux_v1.0/aes_stage2"
              quantize_8bit := false, cpu_offload := false
              adapters := [], uid := 0 } ∧
    (prepare_pipeline true
        (prepare_pipeline true initialState "aes_stage2" false false false false).state
        "aes_stage2" false false true false).state.config_quantize_8bit = true := by
  decide

/-- C2: after a resident `sim_stage1` pipeline and a `prepare_pipeline`
call for `aes_stage2` whose constructor fails, the module dict has lost its
`'pipeline'` key (`pipelineSlot = none`, not the clean "no pipeline
resident" value `some none`), the requested fingerprint was already
recorded before the failed build, and the retry with the same config raises
`KeyError` at line 83 instead of performing a fresh reconstruction.  This
contradicts the claim that the cache is left in the "no pipeline resident"
state and that the next `prepare` reconstructs from scratch. -/
theorem claim_C2_failed_reconstruction_breaks_cache :
    (prepare_pipeline false
        (prepare_pipeline true initialState "sim_stage1" false false false false).state
        "aes_stage2" false false false false).result = .error .constructionFailed ∧
    (prepare_pipeline false
        (prepare_pipeline true initialState "sim_stage1" false false false false).state
        "aes_stage2" false false false false).state.pipelineSlot = none ∧
    (prepare_pipeline false
        (prepare_pipeline true initialState "sim_stage1" false false false false).state
        "aes_stage2" false false false false).state.config_model_version = "aes_stage2" ∧
    (prepare_pipeline true
        (prepare_pipeline false
          (prepare_pipeline true initialState "sim_stage1" false false false false).state
          "aes_stage2" false false false false).state
        "aes_stage2" false false false false).result = .error .keyError ∧
    (prepare_pipeline true
        (prepare_pipeline false
          (prepare_pipeline true initialState "sim_stage1" false false false false).state
          "aes_stage2" false false false false).state
        "aes_stage2" false false false false).trace = [] := by
  decide

/-- C6 counterexample: with supplied seed `0` and a `torch.seed()` draw of
`2^32` (whose low 32 bits are all zero), `generate_image` reports
`seedUsed = 0`, contradicting the claim that the reported seed is always
nonzero when the supplied seed is `0`. -/
theorem claim_C6_cex_zero_draw_reports_zero_seed :
    (generate_image true true 4294967296 0 "e" initialState (some []) "p" 0
        false false false false "aes_stage2").ret
      = .ok { update := { value := some 0
                          label := some
                            "Generated Image, seed=0, saved to ./results/00000_p_seed0.png" }
              lastSeed := "0" } := by
  decide

/-- C6 (amended): a nonzero supplied seed is reported unchanged; a supplied
seed of `0` is replaced by the low 32 bits of the fresh `torch.seed()` draw
for this call only (the cached config is not touched), and the reported
seed is nonzero whenever those low 32 bits are nonzero. -/
theorem claim_C6_seed_reporting (inferOk : Bool) (randSeed imageOut seed : Nat)
    (errMsg prompt : String) (fs : Option (List String))
    (hseed : seed ≠ 0) (hrand : randSeed &&& 0xFFFFFFFF ≠ 0) :
    (∃ rv, (generate_image true inferOk randSeed imageOut errMsg initialState fs prompt seed
        false false false false "aes_stage2").ret = .ok rv ∧
        rv.lastSeed = Nat.repr seed) ∧
    (∃ rv, (generate_image true inferOk randSeed imageOut errMsg initialState fs prompt 0
        false false false false "aes_stage2").ret = .ok rv ∧
        rv.lastSeed = Nat.repr (randSeed &&& 0xFFFFFFFF) ∧ rv.lastSeed ≠ "0") ∧
    (generate_image true inferOk randSeed imageOut errMsg initialState fs prompt 0
        false false false false "aes_stage2").state
      = (prepare_pipeline true initialState "aes_stage2" false false false false).state := by
  refine ⟨?_, ?_, generate_state_eq inferOk randSeed imageOut errMsg prompt fs 0⟩
  · obtain ⟨rv, hret, hls⟩ :=
      generate_ret_ok inferOk randSeed imageOut errMsg prompt fs seed
    have hbeq : (seed == 0) = false := beq_eq_false_iff_ne.mpr hseed
    rw [hbeq] at hls
    exact ⟨rv, hret, by simpa using hls⟩
  · obtain ⟨rv, hret, hls⟩ :=
      generate_ret_ok inferOk randSeed imageOut errMsg prompt fs 0
    simp only [beq_self_eq_true, if_pos] at hls
    exact ⟨rv, hret, hls, by rw [hls]; exact repr_ne_zero_string hrand⟩

/-- C7: when the resident pipeline raises during generation, the module
state and recorded config are untouched, the call returns normally (no
crash), and a subsequent `prepare_pipeline` with the cached config is a
cache hit with an empty trace — but the value returned to the caller is the
bare no-change update `gr.update()` plus the seed string: the constructed
`gr.Error` is never raised, so no error payload reaches the caller. -/
theorem claim_C7_inference_failure_isolated :
    (generate_image true false 0 0 "boom"
        (prepare_pipeline true initialState "aes_stage2" false false false false).state
        (some []) "hello" 7 false false false false "aes_stage2").ret
      = .ok { update := { value := none, label := none }, lastSeed := "7" } ∧
    (generate_image true false 0 0 "boom"
        (prepare_pipeline true initialState "aes_stage2" false false false false).state
        (some []) "hello" 7 false false false false "aes_stage2").state
      = (prepare_pipeline true initialState "aes_stage2" false false false false).state ∧
    (generate_image true false 0 0 "boom"
        (prepare_pipeline true initialState "aes_stage2" false false false false).state
        (some []) "hello" 7 false false false false "aes_stage2").fs = some [] ∧
    (generate_image true false 0 0 "boom"
        (prepare_pipeline true initialState "aes_stage2" false false false false).state
        (some []) "hello" 7 false false false false "aes_stage2").unraisedErrors
      = ["An error occurred: boom"] ∧
    (generate_image true false 0 0 "boom"
        (prepare_pipeline true initialState "aes_stage2" false false false false).state
        (some []) "hello" 7 false false false false "aes_stage2").console = ["boom"] ∧
    (prepare_pipeline true
        (generate_image true false 0 0 "boom"
          (prepare_pipeline true initialState "aes_stage2" false false false false).state
          (some []) "hello" 7 false false false false "aes_stage2").state
        "aes_stage2" false false false false).trace = [] ∧
    (prepare_pipeline true
        (generate_image true false 0 0 "boom"
          (prepare_pipeline true initialState "aes_stage2" false false false false).state
          (some []) "hello" 7 false false false false "aes_stage2").state
        "aes_stage2" false false false false).result
      = .ok { model_version := "aes_stage2"
              infu_model_path := "./models/InfiniteYou/infu_flux_v1.0/aes_stage2"
              quantize_8bit := false, cpu_offload := false
              adapters := [], uid := 0 } := by
  decide

/-- C8: every saved filename has the form
`<5-digit zero-padded sequence>_<sanitized prompt prefix>_seed<seedUsed>.png`,
where the sanitized prompt prefix is exactly the specification's
sanitization (truncate to a 50-character prefix, replace every character
that is not alphanumeric, `'_'`, or `'-'` by `'_'`, strip leading/trailing
`'_'`), and the sequence field is five characters, all decimal digits,
decoding back to the sequence number. -/
theorem claim_C8_filename_format (index : Nat) (prompt : String) (seed : Nat)
    (h : index < 100000) :
    out_name index prompt seed
      = zpad5 index ++ "_" ++ spec_sanitized prompt ++ "_seed" ++ Nat.repr seed ++ ".png" ∧
    (zpad5 index).length = 5 ∧
    (∀ c ∈ (zpad5 index).data, c.isDigit = true) ∧
    decodeDigits (zpad5 index).data = index := by
  refine ⟨?_, zpad5_length h, zpad5_isDigit index, decode_zpad5 index⟩
  unfold out_name
  rw [prompt_name_eq_spec]

/-- C9: saving `N` artifacts sequentially into an empty results area yields
exactly the filenames with sequence numbers `0 .. N-1` in order, pairwise
distinct (so no save ever overwrites an existing file), each save adds
exactly one file, and the first save into an absent directory creates it —
for any prompt contents whatsoever. -/
theorem claim_C9_sequential_saves_collision_free (ps : List (String × Nat))
    (h : ps.length ≤ 100000) :
    runSaves (some []) ps = some (namesFrom 0 ps) ∧
    (namesFrom 0 ps).length = ps.length ∧
    (∀ k e, ps.get? k = some e → (namesFrom 0 ps).get? k = some (out_name k e.1 e.2)) ∧
    (namesFrom 0 ps).Pairwise (· ≠ ·) ∧
    (∀ k e, ps.get? k = some e → out_name k e.1 e.2 ∉ namesFrom 0 (ps.take k)) ∧
    (∀ k e, ps.get? k = some e →
      runSaves (some []) (ps.take (k + 1))
        = some (namesFrom 0 (ps.take k) ++ [out_name k e.1 e.2])) ∧
    (∀ p sd, (save_block none p sd).1 = some [out_name 0 p sd]) := by
  refine ⟨?_, namesFrom_length 0 ps, ?_, namesFrom_pairwise_ne ps 0 (by omega), ?_, ?_,
    fun p sd => rfl⟩
  · rw [runSaves_some ps []]
    rfl
  · intro k e hget
    rw [namesFrom_get? ps 0 k, hget]
    simp
  · intro k e hget hmem
    obtain ⟨hk, _⟩ := List.get?_eq_some.mp hget
    obtain ⟨i, hi, p2, sd2, _, hname⟩ := mem_namesFrom (ps.take k) 0 hmem
    rw [List.length_take] at hi
    have hik : i < k := by omega
    have := out_name_inj_index (by omega) (by omega) hname
    omega
  · intro k e hget
    obtain ⟨hk, _⟩ := List.get?_eq_some.mp hget
    rw [runSaves_some (ps.take (k + 1)) []]
    have htake : ps.take (k + 1) = ps.take k ++ [e] := by
      rw [List.take_succ]
      congr 1
      rw [← List.get?_eq_getElem?, hget]
      rfl
    simp only [List.length_nil, List.nil_append]
    rw [htake, namesFrom_append (ps.take k) [e] 0]
    have hlen : (ps.take k).length = k := by
      rw [List.length_take]
      omega
    obtain ⟨p, sd⟩ := e
    rw [hlen]
    simp [namesFrom]

/-- Witness for C4 at the concrete variant switch
`sim_stage1 → aes_stage2` with all flags off. -/
theorem claim_C4_witness :
    ("sim_stage1" ≠ ("aes_stage2" : String)) ∧
    (∃ p1 p2 : Pipeline,
      (prepare_pipeline true initialState "sim_stage1" false false false false).result
        = .ok p1 ∧
      (prepare_pipeline true
        (prepare_pipeline true initialState "sim_stage1" false false false false).state
        "aes_stage2" false false false false).result = .ok p2 ∧
      p1.uid ≠ p2.uid ∧
      (prepare_pipeline true
        (prepare_pipeline true initialState "sim_stage1" false false false false).state
          "aes_stage2" false false false false).trace
        = [Event.destroy p1.uid, Event.reclaimMemory,
           Event.construct "aes_stage2" false false p2.uid, Event.deleteAdapters p2.uid,
           Event.loadLoras p2.uid ((lorasFor false false).map Prod.snd)] ∧
      releaseBeforeAcquire
        (prepare_pipeline true
          (prepare_pipeline true initialState "sim_stage1" false false false false).state
          "aes_stage2" false false false false).trace ∧
      maxResidents 1
        (prepare_pipeline true
          (prepare_pipeline true initialState "sim_stage1" false false false false).state
          "aes_stage2" false false false false).trace ≤ 1) :=
  ⟨by decide,
    claim_C4_variant_switch_destroys_first "sim_stage1" "aes_stage2" false false false false
      (by decide)⟩

/-- Witness for C5 at the concrete add-on change: realism LoRA turned on,
everything else unchanged. -/
theorem claim_C5_witness :
    (((false, false) : Bool × Bool) ≠ (true, false)) ∧
    (∃ p1 p2 : Pipeline,
      (prepare_pipeline true initialState "aes_stage2" false false false false).result
        = .ok p1 ∧
      (prepare_pipeline true
        (prepare_pipeline true initialState "aes_stage2" false false false false).state
        "aes_stage2" true false false false).result = .ok p2 ∧
      p2.uid = p1.uid ∧
      (prepare_pipeline true
        (prepare_pipeline true initialState "aes_stage2" false false false false).state
          "aes_stage2" true false false false).trace
        = [Event.deleteAdapters p1.uid,
           Event.loadLoras p1.uid ((lorasFor true false).map Prod.snd)] ∧
      (prepare_pipeline true
        (prepare_pipeline true initialState "aes_stage2" false false false false).state
          "aes_stage2" true false false false).trace.countP isFullReconstruction = 0 ∧
      (prepare_pipeline true
        (prepare_pipeline true initialState "aes_stage2" false false false false).state
          "aes_stage2" true false false false).trace.countP isDestroyEvent = 0 ∧
      (prepare_pipeline true
        (prepare_pipeline true initialState "aes_stage2" false false false false).state
          "aes_stage2" true false false false).state.pipelineSlot = some (some p2)) :=
  ⟨by decide,
    claim_C5_addon_swap_no_reconstruction "aes_stage2" false false false false true false
      (by decide)⟩

/-- Witness for C6 at seed `7` and a `torch.seed()` draw of `12345`. -/
theorem claim_C6_witness :
    ((7 : Nat) ≠ 0) ∧ ((12345 : Nat) &&& 0xFFFFFFFF ≠ 0) ∧
    ((∃ rv, (generate_image true true 12345 0 "e" initialState (some []) "p" 7
        false false false false "aes_stage2").ret = .ok rv ∧
        rv.lastSeed = Nat.repr 7) ∧
    (∃ rv, (generate_image true true 12345 0 "e" initialState (some []) "p" 0
        false false false false "aes_stage2").ret = .ok rv ∧
        rv.lastSeed = Nat.repr (12345 &&& 0xFFFFFFFF) ∧ rv.lastSeed ≠ "0") ∧
    (generate_image true true 12345 0 "e" initialState (some []) "p" 0
        false false false false "aes_stage2").state
      = (prepare_pipeline true initialState "aes_stage2" false false false false).state) :=
  ⟨by decide, by decide,
    claim_C6_seed_reporting true 12345 0 7 "e" "p" (some []) (by decide) (by decide)⟩

/-- Witness for C8 at sequence number `7`, a prompt containing a space, a
slash, punctuation, and an emoji, and seed `42`. -/
theorem claim_C8_witness :
    ((7 : Nat) < 100000) ∧
    (out_name 7 "Hello World!/🙂" 42
      = zpad5 7 ++ "_" ++ spec_sanitized "Hello World!/🙂" ++ "_seed" ++ Nat.repr 42
          ++ ".png" ∧
    (zpad5 7).length = 5 ∧
    (∀ c ∈ (zpad5 7).data, c.isDigit = true) ∧
    decodeDigits (zpad5 7).data = 7) :=
  ⟨by decide, claim_C8_filename_format 7 "Hello World!/🙂" 42 (by decide)⟩

/-- Witness for C9 at the two-element save sequence
`[("a b/c", 7), ("p", 0)]`. -/
theorem claim_C9_witness :
    (([("a b/c", 7), ("p", 0)] : List (String × Nat)).length ≤ 100000) ∧
    (runSaves (some []) [("a b/c", 7), ("p", 0)]
        = some (namesFrom 0 [("a b/c", 7), ("p", 0)]) ∧
    (namesFrom 0 [("a b/c", 7), ("p", 0)]).length
        = ([("a b/c", 7), ("p", 0)] : List (String × Nat)).length ∧
    (∀ k e, ([("a b/c", 7), ("p", 0)] : List (String × Nat)).get? k = some e →
      (namesFrom 0 [("a b/c", 7), ("p", 0)]).get? k = some (out_name k e.1 e.2)) ∧
    (namesFrom 0 [("a b/c", 7), ("p", 0)]).Pairwise (· ≠ ·) ∧
    (∀ k e, ([("a b/c", 7), ("p", 0)] : List (String × Nat)).get? k = some e →
      out_name k e.1 e.2 ∉ namesFrom 0 (([("a b/c", 7), ("p", 0)]
        : List (String × Nat)).take k)) ∧
    (∀ k e, ([("a b/c", 7), ("p", 0)] : List (String × Nat)).get? k = some e →
      runSaves (some []) (([("a b/c", 7), ("p", 0)] : List (String × Nat)).take (k + 1))
        = some (namesFrom 0 (([("a b/c", 7), ("p", 0)] : List (String × Nat)).take k)
            ++ [out_name k e.1 e.2])) ∧
    (∀ p sd, (save_block none p sd).1 = some [out_name 0 p sd])) :=
  ⟨by decide, claim_C9_sequential_saves_collision_free [("a b/c", 7), ("p", 0)] (by decide)⟩

end InfiniteYou
